import Mathlib

/-!
Verification development for the two scripts of this repository.

Script 1 (`day-01/main.py`) loads TOML settings, guards against a placeholder
API key, sends one chat-completion request and prints the answer.
Script 2 (`day-02-fight-club/main.py`) enumerates all 8 combinations of the
three optional request parameters and builds one request per combination.

The HTTP transport and file system are external collaborators; they are
modelled by explicit outcome values fed to the embedded functions.
-/

/-- `strMentions needle hay` holds when `needle` occurs contiguously inside
`hay` (substring containment at the character level). -/
def strMentions (needle hay : String) : Prop := needle.data <:+: hay.data

instance (n h : String) : Decidable (strMentions n h) :=
  List.decidableInfix n.data h.data

namespace Day02

/-- The `[request]`/`[openai]` configuration values read by script 2
(`prompt_template`, `response_format`, `max_tokens`, `stop_sequence`, `model`). -/
structure Config where
  prompt_template : String
  response_format : String
  max_tokens : Int
  stop_sequence : String
  model : String
  deriving DecidableEq

/-- Model of Python's builtin `repr` on `str`, as used in
`f"... {repr(STOP_SEQUENCE)}"`: the string is wrapped in single quotes
(double quotes when it contains a single quote but no double quote), with the
quote character and backslashes escaped.  Escaping of non-printable characters
is not modelled; no claim evaluates `repr` on such a string. -/
def pyRepr (s : String) : String :=
  let sq : Char := Char.ofNat 39
  let q : Char := if s.data.contains sq && !s.data.contains '"' then '"' else sq
  let esc : Char → String := fun c =>
    if c = '\\' || c = q then String.singleton '\\' ++ String.singleton c
    else String.singleton c
  String.singleton q ++ String.join (s.data.map esc) ++ String.singleton q

/-- The instruction appended when `use_format` is set. -/
def formatInstruction (cfg : Config) : String :=
  "Ответ должен быть в формате " ++ cfg.response_format ++ "."

/-- The instruction appended when `use_max_tokens` is set. -/
def maxTokensInstruction (cfg : Config) : String :=
  "Ответ не должен превышать " ++ toString cfg.max_tokens ++ " токенов."

/-- The instruction appended when `use_stop` is set. -/
def stopInstruction (cfg : Config) : String :=
  "Заверши ответ перед последовательностью: " ++ pyRepr cfg.stop_sequence

/-- Model of Python's `sep.join(parts)`. -/
def joinSep (sep : String) : List String → String
  | [] => ""
  | [x] => x
  | x :: y :: ys => x ++ sep ++ joinSep sep (y :: ys)

/-- Embedding of `build_system_prompt`: collect the instructions of the
enabled flags in declaration order and join them with single spaces
(`" ".join(instructions) if instructions else ""`). -/
def build_system_prompt (cfg : Config) (use_format use_max_tokens use_stop : Bool) : String :=
  let instructions : List String :=
    (if use_format then [formatInstruction cfg] else []) ++
      (if use_max_tokens then [maxTokensInstruction cfg] else []) ++
      (if use_stop then [stopInstruction cfg] else [])
  if instructions.isEmpty then "" else joinSep " " instructions

/-- A chat message (`{"role": ..., "content": ...}`). -/
structure Message where
  role : String
  content : String
  deriving DecidableEq

/-- The keyword arguments assembled by script 2's `send_request` for
`client.chat.completions.create`.  `response_format?` holds the `"type"`
field of the structured-format directive (`{"type": "json_object"}`) when
present. -/
structure RequestPayload where
  model : String
  messages : List Message
  max_tokens? : Option Int
  stop? : Option String
  response_format? : Option String
  deriving DecidableEq

/-- Embedding of the request-construction part of script 2's `send_request`:
the message list and the conditionally added keyword arguments.  The actual
transport call on the assembled payload is the external collaborator. -/
def send_request_payload (cfg : Config) (use_format use_max_tokens use_stop : Bool) :
    RequestPayload :=
  let system_instruction := build_system_prompt cfg use_format use_max_tokens use_stop
  let messages : List Message :=
    (if system_instruction = "" then []
     else [{ role := "system", content := system_instruction }]) ++
      [{ role := "user", content := cfg.prompt_template }]
  { model := cfg.model
    messages := messages
    max_tokens? := if use_max_tokens then some cfg.max_tokens else none
    stop? := if use_stop then some cfg.stop_sequence else none
    response_format? :=
      if use_format && cfg.response_format == "json" then some "json_object" else none }

/-- The two boolean values, in the order `[False, True]` passed to `product`. -/
def boolValues : List Bool := [false, true]

/-- Embedding of `product([False, True], repeat=3)`: the rightmost coordinate
advances on every step, the leftmost varies slowest. -/
def flagCombinations : List (Bool × Bool × Bool) :=
  boolValues.flatMap fun use_format =>
    boolValues.flatMap fun use_max_tokens =>
      boolValues.map fun use_stop => (use_format, use_max_tokens, use_stop)

/-- Outcome of one trial's transport call: the extracted answer text, or the
message of the exception caught by the per-trial `except Exception`. -/
inductive TrialOutcome where
  | success (answer : String)
  | failure (err : String)
  deriving DecidableEq

/-- What one iteration of script 2's trial loop produces: the 1-based trial
index, the flag tuple, the freshly built request payload, and the trial's
outcome. -/
structure TrialRecord where
  index : Nat
  flags : Bool × Bool × Bool
  payload : RequestPayload
  outcome : TrialOutcome
  deriving DecidableEq

/-- Embedding of the loop of script 2's `main`:
`for i, flags in enumerate(product([False, True], repeat=3), 1)`, where each
iteration builds its request payload afresh and the `try`/`except` around the
transport call turns the trial's outcome (given by `oracle`) into a printed
answer or a printed error, never aborting the loop. -/
def runTrials (cfg : Config) (oracle : Nat → TrialOutcome) : List TrialRecord :=
  (List.enumFrom 1 flagCombinations).map fun p =>
    { index := p.1
      flags := p.2
      payload := send_request_payload cfg p.2.1 p.2.2.1 p.2.2.2
      outcome := oracle p.1 }

end Day02

namespace Day01

/-- A TOML leaf value of the kinds script 1's settings use. -/
inductive TomlVal where
  | str (s : String)
  | int (n : Int)
  deriving DecidableEq

/-- The dictionary returned by `toml.load`, as an association list. -/
abbrev TomlDict := List (String × TomlVal)

/-- Outcome of opening and parsing `settings.toml`: a parsed dictionary, a
`FileNotFoundError`, or any other exception (caught by the generic handler). -/
inductive LoadOutcome where
  | ok (d : TomlDict)
  | fileNotFound
  | parseError (msg : String)
  deriving DecidableEq

/-- The JSON body of a successful HTTP response: an optional `"choices"` list
(each choice abstracted to its `message.content` text) and a flag recording
whether the dict has further keys (for Python dict truthiness). -/
structure RawResponse where
  choices? : Option (List String)
  otherKeys : Bool
  deriving DecidableEq

/-- Outcome of the blocking `requests.post` + `response.json()` call: a parsed
body, a `requests.exceptions.RequestException`, or a `json.JSONDecodeError`. -/
inductive TransportOutcome where
  | ok (r : RawResponse)
  | requestError (msg : String)
  | jsonError (msg : String)
  deriving DecidableEq

/-- A Python exception that escapes an embedded function. -/
inductive PyExn where
  | keyError (key : String)
  | indexError
  deriving DecidableEq

/-- What a completed run of script 1's `main` did: the console lines printed,
and whether `send_request` was invoked. -/
structure MainTrace where
  printed : List String
  sent : Bool
  deriving DecidableEq

/-- Result of running script 1's `main`: a normal return with its trace, or an
uncaught exception together with the lines printed before it was raised. -/
inductive RunResult where
  | normal (t : MainTrace)
  | raised (e : PyExn) (printedBefore : List String)
  deriving DecidableEq

/-- Embedding of `load_settings`: the messages it prints and its return value
(`None` on either caught exception). -/
def load_settings : LoadOutcome → List String × Option TomlDict
  | .ok d => ([], some d)
  | .fileNotFound => (["Ошибка: файл settings.toml не найден"], none)
  | .parseError e => (["Ошибка чтения конфигурационного файла: " ++ e], none)

/-- Embedding of script 1's `send_request`.  Building the headers and payload
reads `api_key`, `model` and `max_tokens`; evaluating the `requests.post`
arguments reads `base_url` and `timeout`; a missing key raises a `KeyError`
that no `except` clause of the function catches.  A `RequestException` or
`JSONDecodeError` from the call is caught, printed, and turns into `None`. -/
def send_request (settings : TomlDict) (tr : TransportOutcome) :
    Except PyExn (List String × Option RawResponse) :=
  match List.lookup "api_key" settings with
  | none => .error (.keyError "api_key")
  | some _ =>
    match List.lookup "model" settings with
    | none => .error (.keyError "model")
    | some _ =>
      match List.lookup "max_tokens" settings with
      | none => .error (.keyError "max_tokens")
      | some _ =>
        match List.lookup "base_url" settings with
        | none => .error (.keyError "base_url")
        | some _ =>
          match List.lookup "timeout" settings with
          | none => .error (.keyError "timeout")
          | some _ =>
            match tr with
            | .ok r => .ok ([], some r)
            | .requestError e => .ok (["Ошибка запроса к API: " ++ e], none)
            | .jsonError e => .ok (["Ошибка парсинга JSON ответа: " ++ e], none)

/-- The startup banner printed first by `main`. -/
def startupMsg : String := "Запуск приложения для генерации ASCII котика..."

/-- The placeholder value guarded against by `main`. -/
def apiKeyPlaceholder : String := "your-api-key-here"

/-- The diagnostic printed when the API key equals the placeholder. -/
def apiKeyWarning : String :=
  "Внимание: В файле settings.toml не указан API ключ. Пожалуйста, укажите ваш API ключ."

/-- Printed just before `send_request` is invoked. -/
def sendingMsg : String := "Отправка запроса к LLM модели..."

/-- Printed when `send_request` returned `None` or the response dict is falsy. -/
def noAnswerMsg : String := "Не удалось получить ответ от модели"

/-- Printed when the response dict lacks a non-empty `"choices"` list. -/
def emptyChoicesMsg : String := "Ошибка: Не удалось получить ответ от модели"

/-- The `"="*60` separator line. -/
def banner60 : String := String.mk (List.replicate 60 '=')

/-- Embedding of script 1's `main`, parameterised by the outcome of the
configuration-file read and of the transport call.  It mirrors the source
line by line: startup banner, `load_settings`, the `if not settings` early
return, the placeholder-key guard (a `KeyError` when `api_key` is absent),
the call to `send_request`, and the guarded extraction of
`result["choices"][0]["message"]["content"]`. -/
def main (lo : LoadOutcome) (tr : TransportOutcome) : RunResult :=
  let res := load_settings lo
  let printed := startupMsg :: res.1
  match res.2 with
  | none => .normal { printed := printed, sent := false }
  | some d =>
    if d.isEmpty then .normal { printed := printed, sent := false }
    else
      match List.lookup "api_key" d with
      | none => .raised (.keyError "api_key") printed
      | some v =>
        if v = .str apiKeyPlaceholder then
          .normal { printed := printed ++ [apiKeyWarning], sent := false }
        else
          let printed := printed ++ [sendingMsg]
          match send_request d tr with
          | .error e => .raised e printed
          | .ok (msgs, none) =>
            .normal { printed := printed ++ msgs ++ [noAnswerMsg], sent := true }
          | .ok (msgs, some r) =>
            let printed := printed ++ msgs
            if r.choices?.isSome || r.otherKeys then
              match r.choices? with
              | some l =>
                if 0 < l.length then
                  match l.get? 0 with
                  | some content =>
                    let out :=
                      printed ++ ["\n" ++ banner60, "Ваш ASCII котик:", banner60, content, banner60]
                    .normal { printed := out, sent := true }
                  | none => .raised .indexError printed
                else .normal { printed := printed ++ [emptyChoicesMsg], sent := true }
              | none => .normal { printed := printed ++ [emptyChoicesMsg], sent := true }
            else
              .normal { printed := printed ++ [noAnswerMsg], sent := true }

/-- The five keys script 1 reads from the parsed settings dictionary. -/
def hasRequiredKeys (d : TomlDict) : Bool :=
  (List.lookup "api_key" d).isSome && (List.lookup "model" d).isSome &&
    (List.lookup "max_tokens" d).isSome && (List.lookup "base_url" d).isSome &&
    (List.lookup "timeout" d).isSome

/-- Whether a run ended in a normal return (no uncaught exception). -/
def RunResult.isNormal : RunResult → Bool
  | .normal _ => true
  | .raised _ _ => false

/-- The last console line of a run. -/
def RunResult.lastPrinted : RunResult → Option String
  | .normal t => t.printed.getLast?
  | .raised _ p => p.getLast?

end Day01

/-- Specification-side restatement of the Prompt/Request Builder contract:
the instructions of the enabled flags, in the fixed order format, max-tokens,
stop, joined with single spaces. -/
def systemPromptSpec (cfg : Day02.Config) (use_format use_max_tokens use_stop : Bool) : String :=
  Day02.joinSep " "
    ((if use_format then [Day02.formatInstruction cfg] else []) ++
      (if use_max_tokens then [Day02.maxTokensInstruction cfg] else []) ++
      (if use_stop then [Day02.stopInstruction cfg] else []))

/-- A single-quote character as a string (Python repr wraps plain strings in
these). -/
def squote : String := String.singleton (Char.ofNat 39)

/-- The end-to-end configuration of the spec's walkthrough:
`prompt_template="ping"`, `response_format="json"`, `max_tokens=5`,
`stop_sequence="STOP"`. -/
def pingConfig : Day02.Config :=
  { prompt_template := "ping", response_format := "json", max_tokens := 5,
    stop_sequence := "STOP", model := "test-model" }

/-- The same configuration with a non-`"json"` response format. -/
def xmlConfig : Day02.Config := { pingConfig with response_format := "xml" }

/-- The word every token-count instruction contains. -/
def tokenMention : String := "токен"

/-- The stem every stop-sequence instruction contains (common stem of
`последовательностью` and `последовательность`). -/
def stopMention : String := "последовательност"

/-- A transport oracle under which every trial's call raises. -/
def failingOracle : Nat → Day02.TrialOutcome := fun _ => .failure "network error"

/-- A parsed settings dictionary providing all five keys script 1 reads. -/
def sampleSettings : Day01.TomlDict :=
  [("api_key", .str "sk-123"), ("base_url", .str "https://api.example.com"),
   ("model", .str "gpt"), ("max_tokens", .int 1000), ("timeout", .int 30)]

/-- A parsed settings dictionary whose API key is still the placeholder. -/
def placeholderSettings : Day01.TomlDict :=
  [("api_key", .str "your-api-key-here"), ("base_url", .str "u"), ("model", .str "m"),
   ("max_tokens", .int 1000), ("timeout", .int 30)]

/-- A response whose `"choices"` list is present but empty. -/
def emptyChoicesResponse : Day01.RawResponse := { choices? := some [], otherKeys := false }

/-! ## Helper lemmas -/

/-- `joinSep` on a non-empty list starts with the head's characters. -/
theorem joinSep_cons_data (sep x : String) (xs : List String) :
    ∃ t, (Day02.joinSep sep (x :: xs)).data = x.data ++ t := by
  cases xs with
  | nil => exact ⟨[], by simp [Day02.joinSep]⟩
  | cons y ys =>
    exact ⟨(sep ++ Day02.joinSep sep (y :: ys)).data,
      by simp [Day02.joinSep, String.data_append]⟩

/-! ## Claims -/

/-- C1: the combination enumerator of script 2 yields every boolean 3-tuple
(use_format, use_max_tokens, use_stop) exactly once, in 3-bit binary counter
order from 000 to 111 with use_format as the most significant bit. -/
theorem c1_flag_enumeration_binary_order :
    Day02.flagCombinations =
      [(false, false, false), (false, false, true), (false, true, false), (false, true, true),
       (true, false, false), (true, false, true), (true, true, false), (true, true, true)] ∧
    ∀ t : Bool × Bool × Bool, Day02.flagCombinations.count t = 1 :=
  ⟨by decide, by decide⟩

/-- C2: with prompt_template "ping", response_format "json", max_tokens 5 and
stop_sequence "STOP", the flag tuple (True, True, True) builds the exact
system instruction (the stop sequence shown in repr quotes), and the payload
carries max_tokens 5, stop "STOP" and the json_object format directive. -/
theorem c2_ping_full_flags_request :
    Day02.build_system_prompt pingConfig true true true =
      "Ответ должен быть в формате json. Ответ не должен превышать 5 токенов. Заверши ответ перед последовательностью: " ++
        squote ++ "STOP" ++ squote ∧
    (Day02.send_request_payload pingConfig true true true).max_tokens? = some 5 ∧
    (Day02.send_request_payload pingConfig true true true).stop? = some "STOP" ∧
    (Day02.send_request_payload pingConfig true true true).response_format? =
      some "json_object" :=
  ⟨by decide, rfl, rfl, by decide⟩

/-- C5: each optional payload field appears only when its flag is set — with
the flag false the field is absent regardless of the other two flags: no stop
field when use_stop is false, no token-limit field when use_max_tokens is
false, no response-format field when use_format is false. -/
theorem c5_optional_fields_require_flags (cfg : Day02.Config) (f m s : Bool) :
    (Day02.send_request_payload cfg f m false).stop? = none ∧
    (Day02.send_request_payload cfg f false s).max_tokens? = none ∧
    (Day02.send_request_payload cfg false m s).response_format? = none :=
  ⟨rfl, rfl, rfl⟩

/-- C6: the message list always ends with a user message carrying exactly the
configured prompt template, and with all flags false no system message is
included, leaving only that user message. -/
theorem c6_user_message_invariant (cfg : Day02.Config) (f m s : Bool) :
    (Day02.send_request_payload cfg f m s).messages.getLast? =
      some { role := "user", content := cfg.prompt_template } ∧
    (Day02.send_request_payload cfg false false false).messages =
      [{ role := "user", content := cfg.prompt_template }] := by
  constructor
  · exact List.getLast?_concat _
  · rfl

/-- C9: a transport failure at any one trial is recorded as that trial's
outcome only; the loop still produces all 8 trial records in order, each with
a freshly built payload for its own flag tuple and an outcome depending only
on its own trial's transport behaviour. -/
theorem c9_trials_continue_after_failure (cfg : Day02.Config)
    (oracle : Nat → Day02.TrialOutcome) (i : Nat) (e : String)
    (_hfail : oracle i = .failure e) :
    Day02.runTrials cfg oracle =
      [{ index := 1, flags := (false, false, false),
         payload := Day02.send_request_payload cfg false false false, outcome := oracle 1 },
       { index := 2, flags := (false, false, true),
         payload := Day02.send_request_payload cfg false false true, outcome := oracle 2 },
       { index := 3, flags := (false, true, false),
         payload := Day02.send_request_payload cfg false true false, outcome := oracle 3 },
       { index := 4, flags := (false, true, true),
         payload := Day02.send_request_payload cfg false true true, outcome := oracle 4 },
       { index := 5, flags := (true, false, false),
         payload := Day02.send_request_payload cfg true false false, outcome := oracle 5 },
       { index := 6, flags := (true, false, true),
         payload := Day02.send_request_payload cfg true false true, outcome := oracle 6 },
       { index := 7, flags := (true, true, false),
         payload := Day02.send_request_payload cfg true true false, outcome := oracle 7 },
       { index := 8, flags := (true, true, true),
         payload := Day02.send_request_payload cfg true true true, outcome := oracle 8 }] := rfl

/-- C9 witness: an oracle failing every trial still yields the 8 records. -/
theorem c9_trials_continue_after_failure_check :
    failingOracle 3 = .failure "network error" ∧
    Day02.runTrials pingConfig failingOracle =
      [{ index := 1, flags := (false, false, false),
         payload := Day02.send_request_payload pingConfig false false false,
         outcome := failingOracle 1 },
       { index := 2, flags := (false, false, true),
         payload := Day02.send_request_payload pingConfig false false true,
         outcome := failingOracle 2 },
       { index := 3, flags := (false, true, false),
         payload := Day02.send_request_payload pingConfig false true false,
         outcome := failingOracle 3 },
       { index := 4, flags := (false, true, true),
         payload := Day02.send_request_payload pingConfig false true true,
         outcome := failingOracle 4 },
       { index := 5, flags := (true, false, false),
         payload := Day02.send_request_payload pingConfig true false false,
         outcome := failingOracle 5 },
       { index := 6, flags := (true, false, true),
         payload := Day02.send_request_payload pingConfig true false true,
         outcome := failingOracle 6 },
       { index := 7, flags := (true, true, false),
         payload := Day02.send_request_payload pingConfig true true false,
         outcome := failingOracle 7 },
       { index := 8, flags := (true, true, true),
         payload := Day02.send_request_payload pingConfig true true true,
         outcome := failingOracle 8 }] :=
  ⟨rfl, c9_trials_continue_after_failure pingConfig failingOracle 3 "network error" rfl⟩

/-- Decomposing a contiguous occurrence inside an appended list: the
occurrence lies inside the left part, inside the right part, or straddles the
boundary, splitting into a nonempty suffix of the left part followed by a
nonempty prefix of the right part. -/
theorem mentions_append_cases {α : Type} {N A B : List α} (h : N <:+: A ++ B) :
    N <:+: A ∨ N <:+: B ∨
      ∃ s p, s ≠ [] ∧ p ≠ [] ∧ s <:+ A ∧ p <+: B ∧ N = s ++ p := by
  obtain ⟨u, v, huv⟩ := h
  rw [List.append_assoc] at huv
  rcases List.append_eq_append_iff.mp huv with ⟨a1, ha1, ha2⟩ | ⟨c1, hc1, hc2⟩
  · rcases List.append_eq_append_iff.mp ha2 with ⟨x, hx1, hx2⟩ | ⟨y, hy1, hy2⟩
    · exact Or.inl ⟨u, x, by rw [ha1, hx1, List.append_assoc]⟩
    · by_cases ha1nil : a1 = []
      · subst ha1nil
        simp only [List.nil_append] at hy1
        exact Or.inr (Or.inl ⟨[], v, by rw [hy2, hy1, List.nil_append]⟩)
      · by_cases hynil : y = []
        · subst hynil
          rw [List.append_nil] at hy1
          exact Or.inl ⟨u, [], by rw [List.append_nil, ha1, hy1]⟩
        · exact Or.inr (Or.inr ⟨a1, y, ha1nil, hynil, ⟨u, ha1.symm⟩, ⟨v, hy2.symm⟩, hy1⟩)
  · exact Or.inr (Or.inl ⟨c1, v, by rw [hc2, List.append_assoc]⟩)

/-- The last element of a list is in every nonempty suffix of it. -/
theorem suffix_getLast_mem {α : Type} {s A : List α} {a : α} (hs : s ≠ [])
    (h : s <:+ A) (hA : A.getLast? = some a) : a ∈ s := by
  obtain ⟨u, rfl⟩ := h
  rw [List.getLast?_append] at hA
  cases hsl : s.getLast? with
  | none => exact absurd (List.getLast?_eq_none_iff.mp hsl) hs
  | some b =>
    rw [hsl] at hA
    simp only [Option.or_some, Option.some.injEq] at hA
    exact hA ▸ List.mem_of_getLast?_eq_some hsl

/-- The head of a list is in every nonempty prefix of it. -/
theorem prefix_head_mem {α : Type} {p B : List α} {b : α} (hp : p ≠ [])
    (h : p <+: B) (hB : B.head? = some b) : b ∈ p := by
  obtain ⟨t, rfl⟩ := h
  cases p with
  | nil => exact absurd rfl hp
  | cons c cs =>
    simp only [List.cons_append, List.head?_cons, Option.some.injEq] at hB
    exact hB ▸ List.mem_cons_self c cs

/-- A needle avoiding the last character of `A` and occurring in neither part
cannot occur in `A ++ B`. -/
theorem not_mentions_append_last {N A B : List Char} {a : Char}
    (hA : ¬ N <:+: A) (hB : ¬ N <:+: B) (hlast : A.getLast? = some a) (ha : a ∉ N) :
    ¬ N <:+: A ++ B := by
  intro h
  rcases mentions_append_cases h with h | h | ⟨s, p, hs, _, hsA, _, rfl⟩
  · exact hA h
  · exact hB h
  · exact ha (List.mem_append_left p (suffix_getLast_mem hs hsA hlast))

/-- A needle avoiding the first character of `B` and occurring in neither part
cannot occur in `A ++ B`. -/
theorem not_mentions_append_head {N A B : List Char} {b : Char}
    (hA : ¬ N <:+: A) (hB : ¬ N <:+: B) (hhead : B.head? = some b) (hb : b ∉ N) :
    ¬ N <:+: A ++ B := by
  intro h
  rcases mentions_append_cases h with h | h | ⟨s, p, _, hp, _, hpB, rfl⟩
  · exact hA h
  · exact hB h
  · exact hb (List.mem_append_right s (prefix_head_mem hp hpB hhead))

/-- C3: build_system_prompt returns the single-space join of the enabled
instructions in the fixed order format, max-tokens, stop; the all-false tuple
yields the empty string; and the format-only tuple yields a string containing
the configured response-format name while mentioning neither tokens nor stop
sequences (provided the format name itself does not mention them). -/
theorem c3_system_prompt_join_order (cfg : Day02.Config) (f m s : Bool)
    (htok : ¬ strMentions tokenMention cfg.response_format)
    (hstop : ¬ strMentions stopMention cfg.response_format) :
    Day02.build_system_prompt cfg f m s = systemPromptSpec cfg f m s ∧
    Day02.build_system_prompt cfg false false false = "" ∧
    strMentions cfg.response_format (Day02.build_system_prompt cfg true false false) ∧
    ¬ strMentions tokenMention (Day02.build_system_prompt cfg true false false) ∧
    ¬ strMentions stopMention (Day02.build_system_prompt cfg true false false) := by
  have hdata : (Day02.build_system_prompt cfg true false false).data =
      ("Ответ должен быть в формате ".data ++ cfg.response_format.data) ++ ".".data := by
    show (Day02.formatInstruction cfg).data = _
    simp [Day02.formatInstruction, String.data_append]
  have hlastP : "Ответ должен быть в формате ".data.getLast? = some ' ' := by decide
  have hheadDot : ".".data.head? = some '.' := by decide
  refine ⟨?_, rfl, ?_, ?_, ?_⟩
  · cases f <;> cases m <;> cases s <;> rfl
  · show cfg.response_format.data <:+: (Day02.build_system_prompt cfg true false false).data
    rw [hdata]
    exact ⟨"Ответ должен быть в формате ".data, ".".data, rfl⟩
  · show ¬ tokenMention.data <:+: (Day02.build_system_prompt cfg true false false).data
    rw [hdata]
    exact not_mentions_append_head
      (not_mentions_append_last (by decide) htok hlastP (by decide))
      (by decide) hheadDot (by decide)
  · show ¬ stopMention.data <:+: (Day02.build_system_prompt cfg true false false).data
    rw [hdata]
    exact not_mentions_append_head
      (not_mentions_append_last (by decide) hstop hlastP (by decide))
      (by decide) hheadDot (by decide)

/-- C3 witness: the concrete ping configuration satisfies the hypotheses and
the conclusions. -/
theorem c3_system_prompt_join_order_check :
    (¬ strMentions tokenMention pingConfig.response_format) ∧
    (¬ strMentions stopMention pingConfig.response_format) ∧
    (Day02.build_system_prompt pingConfig true false false =
        systemPromptSpec pingConfig true false false ∧
      Day02.build_system_prompt pingConfig false false false = "" ∧
      strMentions pingConfig.response_format
        (Day02.build_system_prompt pingConfig true false false) ∧
      ¬ strMentions tokenMention (Day02.build_system_prompt pingConfig true false false) ∧
      ¬ strMentions stopMention (Day02.build_system_prompt pingConfig true false false)) :=
  ⟨by decide, by decide,
    c3_system_prompt_join_order pingConfig true false false (by decide) (by decide)⟩

/-- C4: with use_format set, the payload carries the json_object directive
exactly when the configured format string is "json"; for any other format the
directive is absent even though the instruction text still names the format. -/
theorem c4_json_directive_iff_json_format (cfg : Day02.Config) (m s : Bool) :
    ((Day02.send_request_payload cfg true m s).response_format? = some "json_object" ↔
      cfg.response_format = "json") ∧
    (cfg.response_format ≠ "json" →
      (Day02.send_request_payload cfg true m s).response_format? = none) ∧
    strMentions cfg.response_format (Day02.build_system_prompt cfg true m s) := by
  have hfield : (Day02.send_request_payload cfg true m s).response_format? =
      if cfg.response_format == "json" then some "json_object" else none := rfl
  have hshape : Day02.build_system_prompt cfg true m s =
      Day02.joinSep " " (Day02.formatInstruction cfg ::
        ((if m then [Day02.maxTokensInstruction cfg] else []) ++
          (if s then [Day02.stopInstruction cfg] else []))) := rfl
  refine ⟨?_, ?_, ?_⟩
  · rw [hfield]
    by_cases hj : cfg.response_format = "json" <;> simp [hj]
  · intro hj
    rw [hfield]
    simp [hj]
  · obtain ⟨t, ht⟩ := joinSep_cons_data " " (Day02.formatInstruction cfg)
      ((if m then [Day02.maxTokensInstruction cfg] else []) ++
        (if s then [Day02.stopInstruction cfg] else []))
    show cfg.response_format.data <:+: (Day02.build_system_prompt cfg true m s).data
    rw [hshape, ht]
    exact ⟨"Ответ должен быть в формате ".data, ".".data ++ t,
      by simp [Day02.formatInstruction, String.data_append]⟩

/-- C4 witness: the json and the xml configurations instantiate both
directions. -/
theorem c4_json_directive_iff_json_format_check :
    (Day02.send_request_payload pingConfig true false false).response_format? =
      some "json_object" ∧
    xmlConfig.response_format ≠ "json" ∧
    (Day02.send_request_payload xmlConfig true false false).response_format? = none :=
  ⟨(c4_json_directive_iff_json_format pingConfig false false).1.mpr rfl,
    by decide,
    (c4_json_directive_iff_json_format xmlConfig false false).2.1 (by decide)⟩

/-- `send_request` of script 1 raises only `KeyError`s: every transport
outcome of the modelled kinds is caught by its `except` clauses. -/
theorem send_request_error_keys {d : Day01.TomlDict} {tr : Day01.TransportOutcome}
    {e : Day01.PyExn} (h : Day01.send_request d tr = .error e) :
    ∃ k, e = Day01.PyExn.keyError k := by
  unfold Day01.send_request at h
  repeat' split at h
  all_goals try (cases h)
  all_goals exact ⟨_, rfl⟩

/-- `send_request` of script 1 returns normally whenever the settings
dictionary provides the five keys it reads. -/
theorem send_request_ok_of_keys {d : Day01.TomlDict} (tr : Day01.TransportOutcome)
    (h1 : (List.lookup "api_key" d).isSome = true)
    (h2 : (List.lookup "model" d).isSome = true)
    (h3 : (List.lookup "max_tokens" d).isSome = true)
    (h4 : (List.lookup "base_url" d).isSome = true)
    (h5 : (List.lookup "timeout" d).isSome = true) :
    ∃ out, Day01.send_request d tr = .ok out := by
  obtain ⟨w1, hw1⟩ := Option.isSome_iff_exists.mp h1
  obtain ⟨w2, hw2⟩ := Option.isSome_iff_exists.mp h2
  obtain ⟨w3, hw3⟩ := Option.isSome_iff_exists.mp h3
  obtain ⟨w4, hw4⟩ := Option.isSome_iff_exists.mp h4
  obtain ⟨w5, hw5⟩ := Option.isSome_iff_exists.mp h5
  unfold Day01.send_request
  rw [hw1, hw2, hw3, hw4, hw5]
  cases tr <;> exact ⟨_, rfl⟩

/-- C7: when the loaded configuration maps api_key to the placeholder value,
script 1's main returns normally without invoking send_request, having
printed only the startup banner and the single diagnostic message. -/
theorem c7_placeholder_key_aborts (d : Day01.TomlDict) (tr : Day01.TransportOutcome)
    (h : List.lookup "api_key" d = some (.str Day01.apiKeyPlaceholder)) :
    Day01.main (.ok d) tr =
      .normal { printed := [Day01.startupMsg, Day01.apiKeyWarning], sent := false } := by
  cases d with
  | nil => simp [List.lookup] at h
  | cons kv rest => simp [Day01.main, Day01.load_settings, h]

/-- C7 witness: a concrete placeholder configuration. -/
theorem c7_placeholder_key_aborts_check :
    List.lookup "api_key" placeholderSettings = some (.str Day01.apiKeyPlaceholder) ∧
    Day01.main (.ok placeholderSettings) (.ok emptyChoicesResponse) =
      .normal { printed := [Day01.startupMsg, Day01.apiKeyWarning], sent := false } :=
  ⟨by decide, c7_placeholder_key_aborts placeholderSettings (.ok emptyChoicesResponse) (by decide)⟩

/-- C8 counterexample: a successfully parsed, non-empty configuration that
lacks the api_key key makes main raise an uncaught KeyError — an input
configuration on which an exception does propagate past main. -/
theorem c8_missing_key_escapes :
    Day01.main (.ok [("foo", Day01.TomlVal.int 1)]) (.ok emptyChoicesResponse) =
      .raised (.keyError "api_key") [Day01.startupMsg] := rfl

/-- C8 (amended): file-read and parse errors are caught inside load_settings
and transport errors inside send_request, each printing a message and
returning early; no exception escapes main for any transport outcome,
provided a successfully parsed configuration defines the five keys the
script reads (a parsed configuration missing one of them raises an uncaught
KeyError, see the counterexample). -/
theorem c8_errors_caught_with_required_keys :
    (∀ tr, (Day01.main .fileNotFound tr).isNormal = true) ∧
    (∀ e tr, (Day01.main (.parseError e) tr).isNormal = true) ∧
    (∀ d tr, Day01.hasRequiredKeys d = true → (Day01.main (.ok d) tr).isNormal = true) := by
  refine ⟨fun tr => rfl, fun e tr => rfl, fun d tr hk => ?_⟩
  simp only [Day01.hasRequiredKeys, Bool.and_eq_true] at hk
  obtain ⟨⟨⟨⟨h1, h2⟩, h3⟩, h4⟩, h5⟩ := hk
  obtain ⟨⟨msgs, orr⟩, hout⟩ := send_request_ok_of_keys tr h1 h2 h3 h4 h5
  obtain ⟨v1, hv1⟩ := Option.isSome_iff_exists.mp h1
  rcases d with _ | ⟨kv, rest⟩
  · simp [List.lookup] at hv1
  · rcases orr with _ | r
    · simp only [Day01.main, Day01.load_settings, List.isEmpty_cons, Bool.false_eq_true,
        if_false, hv1, hout]
      split <;> rfl
    · rcases hc : r.choices? with _ | l
      · simp only [Day01.main, Day01.load_settings, List.isEmpty_cons, Bool.false_eq_true,
          if_false, hv1, hout, hc]
        split
        · rfl
        · simp only [Option.isSome_none, Bool.false_or]
          split <;> rfl
      · cases l with
        | nil =>
          simp [Day01.main, Day01.load_settings, hv1, hout, hc]
          split <;> rfl
        | cons c cs =>
          simp [Day01.main, Day01.load_settings, hv1, hout, hc]
          split <;> rfl

/-- C8 witness: a complete configuration runs normally on every modelled
transport outcome. -/
theorem c8_errors_caught_with_required_keys_check :
    Day01.hasRequiredKeys sampleSettings = true ∧
    (Day01.main (.ok sampleSettings) (.requestError "timeout")).isNormal = true :=
  ⟨by decide,
    c8_errors_caught_with_required_keys.2.2 sampleSettings (.requestError "timeout") (by decide)⟩

/-- C10: script 1's main indexes choices[0] only behind the guard that the
response contains a non-empty "choices" list — it never raises an IndexError
for any inputs; and whenever the response's choices are absent or empty (with
an otherwise well-formed run), main returns normally and ends with a
diagnostic line instead of indexing. -/
theorem c10_choices_index_guarded :
    (∀ lo tr p, Day01.main lo tr ≠ .raised Day01.PyExn.indexError p) ∧
    (∀ d v r, List.lookup "api_key" d = some v → v ≠ .str Day01.apiKeyPlaceholder →
      Day01.hasRequiredKeys d = true →
      (r.choices? = none ∨ r.choices? = some []) →
      (Day01.main (.ok d) (.ok r)).isNormal = true ∧
      ((Day01.main (.ok d) (.ok r)).lastPrinted = some Day01.emptyChoicesMsg ∨
        (Day01.main (.ok d) (.ok r)).lastPrinted = some Day01.noAnswerMsg)) := by
  constructor
  · intro lo tr p h
    simp only [Day01.main, Day01.load_settings] at h
    repeat' split at h
    all_goals try (cases h)
    all_goals first
      | (obtain ⟨k, hk⟩ := send_request_error_keys (by assumption); cases hk)
      | simp_all [List.get?_eq_none]
  · intro d v r hv hne hk hchoices
    simp only [Day01.hasRequiredKeys, Bool.and_eq_true] at hk
    obtain ⟨⟨⟨⟨h1, h2⟩, h3⟩, h4⟩, h5⟩ := hk
    have hsend : Day01.send_request d (.ok r) = .ok ([], some r) := by
      obtain ⟨w1, hw1⟩ := Option.isSome_iff_exists.mp h1
      obtain ⟨w2, hw2⟩ := Option.isSome_iff_exists.mp h2
      obtain ⟨w3, hw3⟩ := Option.isSome_iff_exists.mp h3
      obtain ⟨w4, hw4⟩ := Option.isSome_iff_exists.mp h4
      obtain ⟨w5, hw5⟩ := Option.isSome_iff_exists.mp h5
      unfold Day01.send_request
      rw [hw1, hw2, hw3, hw4, hw5]
    rcases d with _ | ⟨kv, rest⟩
    · simp [List.lookup] at hv
    · have hmain : ∃ msg, (msg = Day01.emptyChoicesMsg ∨ msg = Day01.noAnswerMsg) ∧
          Day01.main (.ok (kv :: rest)) (.ok r) =
            .normal { printed := [Day01.startupMsg, Day01.sendingMsg, msg], sent := true } := by
        rcases hchoices with hc | hc
        · cases hot : r.otherKeys
          · exact ⟨Day01.noAnswerMsg, Or.inr rfl,
              by simp [Day01.main, Day01.load_settings, hv, hne, hsend, hc, hot]⟩
          · exact ⟨Day01.emptyChoicesMsg, Or.inl rfl,
              by simp [Day01.main, Day01.load_settings, hv, hne, hsend, hc, hot]⟩
        · exact ⟨Day01.emptyChoicesMsg, Or.inl rfl,
            by simp [Day01.main, Day01.load_settings, hv, hne, hsend, hc]⟩
      obtain ⟨msg, hmsg, hm⟩ := hmain
      rw [hm]
      rcases hmsg with rfl | rfl
      · exact ⟨rfl, Or.inl rfl⟩
      · exact ⟨rfl, Or.inr rfl⟩

/-- C10 witness: a well-formed run whose response carries an empty choices
list ends with the diagnostic, and no run raises an IndexError. -/
theorem c10_choices_index_guarded_check :
    Day01.main (.ok sampleSettings) (.ok emptyChoicesResponse) ≠
      .raised Day01.PyExn.indexError [Day01.startupMsg] ∧
    (Day01.main (.ok sampleSettings) (.ok emptyChoicesResponse)).isNormal = true ∧
    (Day01.main (.ok sampleSettings) (.ok emptyChoicesResponse)).lastPrinted =
      some Day01.emptyChoicesMsg := by
  have h2 := c10_choices_index_guarded.2 sampleSettings (.str "sk-123") emptyChoicesResponse
    (by decide) (by decide) (by decide) (Or.inr rfl)
  exact ⟨c10_choices_index_guarded.1 _ _ _, h2.1, by decide⟩
